import Mathlib

/-!
Verification of the Action Chain Execution Engine of ioBroker.virtual-devices
(`lib/action-chain.js`), shallowly embedded in Lean.

The value domain of the engine (state values written to and read from the
external bus) is restricted to booleans, integer numerics and strings, which
covers every value the adapter and its configuration produce.  JavaScript
numeric coercion of strings is modelled for optionally signed decimal integer
literals (and the empty string, which coerces to 0); other strings coerce to
NaN, modelled as `none`.
-/

namespace VirtualDevices

/-- A JavaScript value as handled by the engine: boolean, (integer) number,
or string. -/
inductive JSVal where
  | bool (b : Bool)
  | num (n : Int)
  | str (s : String)
deriving DecidableEq, Repr

/-- Lowercase an ASCII character (JavaScript `toLowerCase` on the engine's
character range). -/
def lowerChar (c : Char) : Char :=
  if 65 ≤ c.toNat ∧ c.toNat ≤ 90 then Char.ofNat (c.toNat + 32) else c

/-- Lowercase a string (JavaScript `toLowerCase` on the engine's domain). -/
def toLowerStr (s : String) : String := ⟨s.data.map lowerChar⟩

/-- Strip leading and trailing whitespace, as JavaScript `ToNumber` does
before parsing a numeric string. -/
def trimChars (cs : List Char) : List Char :=
  ((cs.dropWhile Char.isWhitespace).reverse.dropWhile Char.isWhitespace).reverse

/-- Parse a non-empty all-digit character list as a natural number. -/
def parseDigits : List Char → Option Nat
  | [] => none
  | cs =>
    if cs.all Char.isDigit then
      some (cs.foldl (fun a c => a * 10 + (c.toNat - 48)) 0)
    else none

/-- JavaScript `ToNumber` on a string, restricted to optionally signed decimal
integer literals.  Whitespace is trimmed; the empty string converts to `0`;
a string that is not an integer literal converts to NaN (`none`). -/
def strToNumber (s : String) : Option Int :=
  match trimChars s.data with
  | [] => some 0
  | '+' :: rest => (parseDigits rest).map Int.ofNat
  | '-' :: rest => (parseDigits rest).map (fun n => -(Int.ofNat n))
  | cs => (parseDigits cs).map Int.ofNat

/-- JavaScript `ToNumber` on the engine's value domain (NaN is `none`). -/
def jsToNumber : JSVal → Option Int
  | .bool b => some (if b then 1 else 0)
  | .num n => some n
  | .str s => strToNumber s

/-- JavaScript abstract (loose) equality `==` on the engine's value domain:
same-type comparisons are direct; mixed-type comparisons convert both sides
with `ToNumber` and compare, with NaN unequal to everything.
This embeds the `actual == expected` test of `looseEquals`. -/
def jsEq (a b : JSVal) : Bool :=
  match a, b with
  | .bool x, .bool y => x == y
  | .num x, .num y => x == y
  | .str x, .str y => x == y
  | x, y =>
    match jsToNumber x, jsToNumber y with
    | some m, some n => m == n
    | _, _ => false

/-- JavaScript `String(v)` on the engine's value domain. -/
def jsString : JSVal → String
  | .bool b => if b then "true" else "false"
  | .num n => toString n
  | .str s => s

/-- JavaScript strict equality `===` on the engine's value domain:
type-preserving, no coercion. -/
def strictEq (a b : JSVal) : Bool := a == b

/-- `looseEquals(actual, expected)` from `lib/action-chain.js`: first the
JavaScript `==` test, then comparison of the lowercase string
representations. -/
def looseEquals (actual expected : JSVal) : Bool :=
  if jsEq actual expected then true
  else toLowerStr (jsString actual) == toLowerStr (jsString expected)

/-- The matcher as worded by the spec (§4.1): a type-preserving (native)
equality check first, and only when that fails, comparison of the lowercase
string representations.  Stated here to be compared against `looseEquals`,
the matcher the source actually implements. -/
def specMatches (observed expected : JSVal) : Bool :=
  if strictEq observed expected then true
  else toLowerStr (jsString observed) == toLowerStr (jsString expected)

/-- A `waitBefore` condition of a chain step (`WaitCondition` in the source):
either a delay (`type: "delay"`, field `ms`), a state watch (`type: "state"`,
fields `objectId`, `value`, `timeout`), or an unrecognized `type` tag, which
`_wait` logs and skips.  Absent numeric fields are `none`. -/
inductive WaitCondition where
  | delay (ms : Option Int)
  | state (objectId : String) (value : JSVal) (timeout : Option Int)
  | other (tag : String)
deriving DecidableEq, Repr

/-- One step of an action chain (`ActionChainStep`). -/
structure ChainStep where
  objectId : String
  value : JSVal
  waitBefore : Option WaitCondition := none
deriving DecidableEq, Repr

/-- `condition.ms || 0` — a missing (or zero, i.e. falsy) delay is 0 ms. -/
def effMs : Option Int → Int
  | none => 0
  | some m => if m = 0 then 0 else m

/-- `condition.timeout || 30000` — a missing or falsy (0) state-watch timeout
becomes the 30000 ms default. -/
def effTimeout : Option Int → Int
  | none => 30000
  | some t => if t = 0 then 30000 else t

/-- The callback scheduled on the executor's single timer slot (`_timer`):
either the `_delay` resolution callback or the `_waitForState` timeout
callback (whose closure captures the object id, the expected value and the
configured timeout). -/
inductive TimerK where
  | delayK (ms : Int)
  | timeoutK (objectId : String) (expected : JSVal) (timeoutMs : Int)
deriving DecidableEq, Repr

/-- The mutable fields of an `ActionChainExecutor` instance.  `none`/`false`
model a `null` field; `stateHandler` carries the data captured by the
`handler` closure (the watched object id and the expected value). -/
structure Exec where
  aborted : Bool := false
  timer : Option TimerK := none
  hasUnsubscribe : Bool := false
  hasRejectCurrent : Bool := false
  stateHandler : Option (String × JSVal) := none
  stateHandlerObjectId : Option String := none
deriving DecidableEq, Repr

/-- A freshly constructed executor. -/
def initExec : Exec := {}

/-- Terminal result of a run: the promise of `execute` resolved, or rejected
with an error message. -/
inductive Outcome where
  | completed
  | error (msg : String)
deriving DecidableEq, Repr

/-- Where a run currently stands: suspended in a `_delay` wait before `cur`,
suspended in a `_waitForState` wait before `cur` (with `rest` the steps after
`cur`), or settled. -/
inductive Phase where
  | waitingDelay (cur : ChainStep) (rest : List ChainStep)
  | waitingState (cur : ChainStep) (rest : List ChainStep)
  | done (o : Outcome)
deriving DecidableEq, Repr

/-- A configuration of one run: the executor's fields, the writes issued to
the bus so far (in order), and the run's phase. -/
structure Cfg where
  exec : Exec
  writes : List (String × JSVal)
  phase : Phase
deriving DecidableEq, Repr

/-- The external state bus (the adapter, seen through
`setForeignStateAsync` / `getForeignStateAsync`): a write either resolves or
rejects with an error message; a read either rejects or yields the current
state's value (`none` when the state object is `null`). -/
structure Bus where
  write : String → JSVal → Except String Unit
  read : String → Except String (Option JSVal)

/-- The message of the error thrown on abort. -/
def abortMsg : String := "Action chain aborted"

/-- The message of the error a `_waitForState` timeout rejects with:
`Timeout waiting for OBJECTID to reach EXPECTEDVALUE`. -/
def timeoutMsg (objectId : String) (expected : JSVal) : String :=
  "Timeout waiting for " ++ objectId ++ " to reach " ++ jsString expected

/-- `_waitForState`'s `cleanup`: clears the timer and nulls the
`_unsubscribe` and `_rejectCurrent` fields.  It nulls `_unsubscribe`
without invoking it, so `_stateHandler` and `_stateHandlerObjectId` are
left untouched. -/
def cleanup (ex : Exec) : Exec :=
  { ex with timer := none, hasUnsubscribe := false, hasRejectCurrent := false }

/-- The `currentState && looseEquals(currentState.val, expectedValue)` test
on the result of the initial read (and of a delivered notification). -/
def stateMatchesNow (st : Option JSVal) (expected : JSVal) : Bool :=
  match st with
  | some v => looseEquals v expected
  | none => false

/-- The executor fields after `_waitForState` registers its match handler
and arms the timeout timer. -/
def armState (ex : Exec) (objectId : String) (expected : JSVal)
    (tmo : Option Int) : Exec :=
  { ex with
    stateHandler := some (objectId, expected),
    stateHandlerObjectId := some objectId,
    hasUnsubscribe := true,
    timer := some (.timeoutK objectId expected (effTimeout tmo)) }

/-- The body of the `execute` loop from line 105 on: re-check the abort flag,
then issue the step's write to the bus.  Returns the terminal configuration
on abort or write rejection, otherwise the executor state and the write log
to continue with. -/
def writeStep (bus : Bus) (ex : Exec) (ws : List (String × JSVal))
    (step : ChainStep) : Except Cfg (Exec × List (String × JSVal)) :=
  if ex.aborted then .error ⟨ex, ws, .done (.error abortMsg)⟩
  else
    let ws1 := ws ++ [(step.objectId, step.value)]
    match bus.write step.objectId step.value with
    | .error e => .error ⟨ex, ws1, .done (.error e)⟩
    | .ok _ => .ok (ex, ws1)

/-- The `execute` loop over the remaining steps, starting at the top of a
loop iteration (the line-92 abort check).  A pending `_delay` or
`_waitForState` suspends the run by returning a waiting configuration; a
state watch whose initial read already matches settles inline and the loop
proceeds to the write. -/
def runSteps (bus : Bus) : Exec → List (String × JSVal) → List ChainStep → Cfg
  | ex, ws, [] => ⟨ex, ws, .done .completed⟩
  | ex, ws, step :: rest =>
    if ex.aborted then ⟨ex, ws, .done (.error abortMsg)⟩
    else
      match step.waitBefore with
      | none =>
        match writeStep bus ex ws step with
        | .error c => c
        | .ok (ex1, ws1) => runSteps bus ex1 ws1 rest
      | some (.delay ms) =>
        ⟨{ ex with hasRejectCurrent := true, timer := some (.delayK (effMs ms)) },
          ws, .waitingDelay step rest⟩
      | some (.state oid expd tmo) =>
        let ex1 := { ex with hasRejectCurrent := true }
        match bus.read oid with
        | .error e => ⟨cleanup ex1, ws, .done (.error e)⟩
        | .ok st =>
          if stateMatchesNow st expd then
            match writeStep bus (cleanup ex1) ws step with
            | .error c => c
            | .ok (ex2, ws2) => runSteps bus ex2 ws2 rest
          else
            ⟨armState ex1 oid expd tmo, ws, .waitingState step rest⟩
      | some (.other _) =>
        match writeStep bus ex ws step with
        | .error c => c
        | .ok (ex1, ws1) => runSteps bus ex1 ws1 rest

/-- Resume the run after a wait before `step` resolved: the post-wait abort
check and write of `step`, then the loop over `rest`. -/
def resumeRun (bus : Bus) (ex : Exec) (ws : List (String × JSVal))
    (step : ChainStep) (rest : List ChainStep) : Cfg :=
  match writeStep bus ex ws step with
  | .error c => c
  | .ok (ex1, ws1) => runSteps bus ex1 ws1 rest

/-- `ActionChainExecutor.execute`: an empty (or absent) chain returns at
once; otherwise the abort flag is reset to `false` and the step loop runs. -/
def execute (bus : Bus) (chain : List ChainStep) (ex : Exec) : Cfg :=
  if chain.isEmpty then ⟨ex, [], .done .completed⟩
  else runSteps bus { ex with aborted := false } [] chain

/-- The effect of `abort()` on the executor's fields: set the abort flag,
clear the timer, invoke `_unsubscribe` if set (clearing the state handler)
and null it, and null `_rejectCurrent`. -/
def abortExec (ex : Exec) : Exec :=
  let ex1 := { ex with aborted := true, timer := none }
  let ex2 :=
    if ex1.hasUnsubscribe then
      { ex1 with stateHandler := none, stateHandlerObjectId := none,
                 hasUnsubscribe := false }
    else ex1
  { ex2 with hasRejectCurrent := false }

/-- External events that can reach a suspended run: the armed timer firing,
a state-change notification delivered through `onStateChange`, and a call
to `abort()`. -/
inductive Ev where
  | timerFires
  | notify (id : String) (st : Option JSVal)
  | abortCall
deriving DecidableEq, Repr

/-- Whether a delivered notification reaches and satisfies the registered
match handler: `onStateChange` requires a handler and `id ===
_stateHandlerObjectId`; the handler itself requires `id === objectId`, a
non-null state, and a matching value. -/
def notifyTriggers (ex : Exec) (id : String) (st : Option JSVal) : Bool :=
  match ex.stateHandler, ex.stateHandlerObjectId with
  | some (oid, expd), some hid =>
    (id == hid) && (id == oid) && stateMatchesNow st expd
  | _, _ => false

/-- Deliver one external event to a configuration.

* `abortCall` applies `abort()` to the executor's fields; if
  `_rejectCurrent` was set, the pending wait's promise rejects (for a state
  wait, through `settle`, which is a no-op once settled), so a waiting phase
  becomes `done` with the abort error and a settled phase stays settled.
* `timerFires` runs the armed timer's callback: the `_delay` callback
  resolves its wait; the `_waitForState` timeout callback settles the state
  wait with the timeout error.
* `notify` runs `onStateChange`: if it triggers the registered handler, the
  handler calls `settle(null)`, which resumes a pending state wait and is a
  no-op on a wait that has already settled. -/
def handleEvent (bus : Bus) (c : Cfg) : Ev → Cfg
  | .abortCall =>
    let ex1 := abortExec c.exec
    if c.exec.hasRejectCurrent then
      match c.phase with
      | .waitingDelay _ _ => ⟨ex1, c.writes, .done (.error abortMsg)⟩
      | .waitingState _ _ => ⟨ex1, c.writes, .done (.error abortMsg)⟩
      | .done o => ⟨ex1, c.writes, .done o⟩
    else ⟨ex1, c.writes, c.phase⟩
  | .timerFires =>
    match c.exec.timer with
    | none => c
    | some (.delayK _) =>
      let ex1 := { c.exec with timer := none, hasRejectCurrent := false }
      match c.phase with
      | .waitingDelay step rest => resumeRun bus ex1 c.writes step rest
      | ph => ⟨ex1, c.writes, ph⟩
    | some (.timeoutK oid expd _) =>
      match c.phase with
      | .waitingState _ _ =>
        ⟨cleanup c.exec, c.writes, .done (.error (timeoutMsg oid expd))⟩
      | ph => ⟨cleanup c.exec, c.writes, ph⟩
  | .notify id st =>
    if notifyTriggers c.exec id st then
      match c.phase with
      | .waitingState step rest => resumeRun bus (cleanup c.exec) c.writes step rest
      | _ => c
    else c

/-- Deliver a list of external events, in order, to a configuration. -/
def runEventsFrom (bus : Bus) (c : Cfg) (evs : List Ev) : Cfg :=
  evs.foldl (handleEvent bus) c

/-- Start a run on a fresh executor and deliver a list of external events. -/
def runEvents (bus : Bus) (chain : List ChainStep) (evs : List Ev) : Cfg :=
  runEventsFrom bus (execute bus chain initExec) evs

end VirtualDevices

namespace VirtualDevices

/-- C8: The matcher satisfies the spec's test vectors:
`matches(1, "1") = true`, `matches(true, "true") = true`,
`matches(0, "false") = false`, `matches("1", 1) = true`. -/
theorem c8_matcher_vectors :
    looseEquals (.num 1) (.str "1") = true ∧
    looseEquals (.bool true) (.str "true") = true ∧
    looseEquals (.num 0) (.str "false") = false ∧
    looseEquals (.str "1") (.num 1) = true := by
  decide

/-- C3 counterexample: the claim "matches returns true iff a type-preserving
equality succeeds or, when it fails, the lowercase string representations
are equal" is false at `observed = false`, `expected = "0"`: the source's
matcher answers `true` (JavaScript `==` coerces `false` and `"0"` both to
the number 0), while the claimed predicate answers `false` (the values are
not strictly equal and `"false" ≠ "0"`). -/
theorem c3_counterexample :
    looseEquals (.bool false) (.str "0") = true ∧
    specMatches (.bool false) (.str "0") = false := by
  decide

/-- C3 (amended): `matches(observed, expected)` returns true iff either the
JavaScript loose (coercing) equality `==` of the two values succeeds, or the
lowercase string representations of the two values are equal.  The first
check is JavaScript `==`, which coerces across types; it is not
type-preserving. -/
theorem c3_matches_iff (observed expected : JSVal) :
    looseEquals observed expected = true ↔
      (jsEq observed expected = true ∨
        toLowerStr (jsString observed) = toLowerStr (jsString expected)) := by
  unfold looseEquals
  cases h : jsEq observed expected <;> simp [h]

/-- A bus on which every write succeeds and every read yields a `null`
state. -/
def busOK : Bus := ⟨fun _ _ => .ok (), fun _ => .ok none⟩

/-- The step loop walks a wait-free prefix whose writes all succeed, logging
one write per step in order, and then continues with the remaining steps. -/
theorem runSteps_ok_prefix (bus : Bus) (pre : List ChainStep) :
    ∀ (ex : Exec) (ws : List (String × JSVal)), ex.aborted = false →
    (∀ p ∈ pre, p.waitBefore = none) →
    (∀ p ∈ pre, bus.write p.objectId p.value = .ok ()) →
    ∀ rest : List ChainStep,
    runSteps bus ex ws (pre ++ rest) =
      runSteps bus ex (ws ++ pre.map (fun p => (p.objectId, p.value))) rest := by
  induction pre with
  | nil => intro ex ws _ _ _ rest; simp
  | cons p pre ih =>
    intro ex ws hab hnw hok rest
    have hpw : p.waitBefore = none := hnw p (by simp)
    have hpo : bus.write p.objectId p.value = .ok () := hok p (by simp)
    simp only [List.cons_append, runSteps, hab, hpw, writeStep, hpo,
      Bool.false_eq_true, if_false, List.append_eq]
    rw [ih ex (ws ++ [(p.objectId, p.value)]) hab
      (fun s hs => hnw s (by simp [hs]))
      (fun s hs => hok s (by simp [hs])) rest]
    simp

/-- C4 counterexample: calling `abort()` on a fresh executor and then running
a one-step chain on a healthy bus does not fail fast — the run completes and
the step's write is issued, because `execute` resets `this._aborted` to
`false` before the loop. -/
theorem c4_counterexample :
    (execute busOK [⟨"lamp", .bool true, none⟩] (abortExec initExec)).phase =
      .done .completed ∧
    (execute busOK [⟨"lamp", .bool true, none⟩] (abortExec initExec)).writes =
      [("lamp", .bool true)] ∧
    (execute busOK [⟨"lamp", .bool true, none⟩] (abortExec initExec)).phase ≠
      .done (.error abortMsg) := by
  decide

/-- C4 (amended): `abort()` called before `run()` is erased — `execute`
resets the abort flag on entry, so the subsequent run behaves exactly as a
run of a fresh executor (same writes, same settlement). -/
theorem c4_abort_before_run_erased (bus : Bus) (chain : List ChainStep) :
    (execute bus chain (abortExec initExec)).phase =
      (execute bus chain initExec).phase ∧
    (execute bus chain (abortExec initExec)).writes =
      (execute bus chain initExec).writes := by
  have hx : ({ abortExec initExec with aborted := false } : Exec) =
      { initExec with aborted := false } := by decide
  by_cases h : chain.isEmpty <;> simp [execute, h, hx]

/-- C9: a chain of steps none of which carries a `waitBefore`, run on a bus
on which every write succeeds, issues exactly one write per step, in chain
order, and the run completes successfully. -/
theorem c9_no_wait_chain (bus : Bus) (chain : List ChainStep)
    (hnw : ∀ s ∈ chain, s.waitBefore = none)
    (hbw : ∀ t v, bus.write t v = .ok ()) :
    (execute bus chain initExec).writes =
      chain.map (fun s => (s.objectId, s.value)) ∧
    (execute bus chain initExec).phase = .done .completed := by
  by_cases h : chain.isEmpty
  · have : chain = [] := by simpa [List.isEmpty_iff] using h
    subst this; simp [execute]
  · have := runSteps_ok_prefix bus chain { initExec with aborted := false } []
      rfl hnw (fun p _ => hbw p.objectId p.value) []
    simp only [List.append_nil] at this
    simp [execute, h, this, runSteps]

/-- C9 witness: a concrete two-step wait-free chain on a healthy bus. -/
theorem c9_witness :
    (execute busOK [⟨"relay", .bool true, none⟩, ⟨"speed", .num 2, none⟩]
        initExec).writes = [("relay", .bool true), ("speed", .num 2)] ∧
    (execute busOK [⟨"relay", .bool true, none⟩, ⟨"speed", .num 2, none⟩]
        initExec).phase = .done .completed := by
  have h := c9_no_wait_chain busOK
    [⟨"relay", .bool true, none⟩, ⟨"speed", .num 2, none⟩]
    (by decide) (fun t v => rfl)
  simpa using h

/-- C5 (amended): if the bus write of the step after a wait-free, healthy
prefix rejects, the run fails immediately with the underlying bus error
itself — not wrapped, and not annotated with the target or the step index —
no later step executes, and the writes of the earlier steps are not undone. -/
theorem c5_write_rejection (bus : Bus) (pre : List ChainStep) (s : ChainStep)
    (rest : List ChainStep) (e : String)
    (hnw : ∀ p ∈ pre, p.waitBefore = none)
    (hok : ∀ p ∈ pre, bus.write p.objectId p.value = .ok ())
    (hsw : s.waitBefore = none)
    (hs : bus.write s.objectId s.value = .error e) :
    execute bus (pre ++ s :: rest) initExec =
      ⟨initExec,
        pre.map (fun p => (p.objectId, p.value)) ++ [(s.objectId, s.value)],
        .done (.error e)⟩ := by
  have hne : (pre ++ s :: rest).isEmpty = false := by
    cases pre <;> simp
  have hpre := runSteps_ok_prefix bus pre { initExec with aborted := false } []
    rfl hnw hok (s :: rest)
  simp only [List.nil_append] at hpre
  simp only [execute, hne, Bool.false_eq_true, if_false, hpre]
  simp only [runSteps, writeStep, hsw, hs]
  rfl

/-- A bus that rejects writes to targets `x` and `z` with the error `boom`
and accepts every other write. -/
def busFail : Bus :=
  ⟨fun t _ => if t = "x" ∨ t = "z" then .error "boom" else .ok (),
   fun _ => .ok none⟩

/-- C5 counterexample: two runs whose writes fail at different step indices
(1 and 2) and on different targets (`x` and `z`) settle with the identical
error `boom` — the surfaced error is the bus error unchanged, so it wraps
nothing and includes neither the target nor the step index, contrary to the
claim. -/
theorem c5_counterexample :
    (execute busFail [⟨"a", .num 1, none⟩, ⟨"x", .num 2, none⟩]
        initExec).phase = .done (.error "boom") ∧
    (execute busFail
        [⟨"b", .bool true, none⟩, ⟨"c", .num 0, none⟩, ⟨"z", .num 5, none⟩]
        initExec).phase = .done (.error "boom") := by
  decide

/-- C5 witness: the amended statement at a concrete two-step chain whose
second write rejects. -/
theorem c5_witness :
    execute busFail [⟨"a", .num 1, none⟩, ⟨"x", .num 2, none⟩] initExec =
      ⟨initExec, [("a", .num 1), ("x", .num 2)], .done (.error "boom")⟩ := by
  have h := c5_write_rejection busFail [⟨"a", .num 1, none⟩]
    ⟨"x", .num 2, none⟩ [] "boom" (by decide) (by intro p hp; fin_cases hp; rfl)
    rfl rfl
  simpa using h

/-- C7: a `StateMatch` wait whose initial read already satisfies the matcher
resolves immediately: the run completes with the step's write issued, with
no events delivered (hence no `notify` needed), no timeout timer armed and
no change handler registered. -/
theorem c7_already_satisfied (bus : Bus) (t : String) (v : JSVal)
    (oid : String) (expd : JSVal) (tmo : Option Int) (w : JSVal)
    (hread : bus.read oid = .ok (some w))
    (hm : looseEquals w expd = true)
    (hwr : bus.write t v = .ok ()) :
    (execute bus [⟨t, v, some (.state oid expd tmo)⟩] initExec).phase =
      .done .completed ∧
    (execute bus [⟨t, v, some (.state oid expd tmo)⟩] initExec).writes =
      [(t, v)] ∧
    (execute bus [⟨t, v, some (.state oid expd tmo)⟩] initExec).exec.timer =
      none ∧
    (execute bus [⟨t, v, some (.state oid expd tmo)⟩]
        initExec).exec.stateHandler = none := by
  simp [execute, runSteps, writeStep, hread, stateMatchesNow, hm, cleanup, hwr,
    initExec]

/-- A bus on which every read yields the value `true` and every write
succeeds. -/
def busReadTrue : Bus := ⟨fun _ _ => .ok (), fun _ => .ok (some (.bool true))⟩

/-- C7 witness: a concrete state wait on a target that already reads
`true`. -/
theorem c7_witness :
    (execute busReadTrue [⟨"fan", .num 2, some (.state "relay" (.str "true") none)⟩]
        initExec).phase = .done .completed ∧
    (execute busReadTrue [⟨"fan", .num 2, some (.state "relay" (.str "true") none)⟩]
        initExec).writes = [("fan", .num 2)] ∧
    (execute busReadTrue [⟨"fan", .num 2, some (.state "relay" (.str "true") none)⟩]
        initExec).exec.timer = none ∧
    (execute busReadTrue [⟨"fan", .num 2, some (.state "relay" (.str "true") none)⟩]
        initExec).exec.stateHandler = none :=
  c7_already_satisfied busReadTrue "fan" (.num 2) "relay" (.str "true") none
    (.bool true) rfl (by decide) rfl

/-- Once a run has settled, any single later event leaves the outcome and
the write log unchanged: the `settled` guard makes late timer callbacks,
late notifications and further aborts no-ops on the run's promise. -/
theorem done_absorbs (bus : Bus) (c : Cfg) (o : Outcome)
    (hph : c.phase = .done o) (e : Ev) :
    (handleEvent bus c e).phase = .done o ∧
    (handleEvent bus c e).writes = c.writes := by
  cases e with
  | abortCall =>
    by_cases h : c.exec.hasRejectCurrent <;> simp [handleEvent, h, hph]
  | timerFires =>
    cases htm : c.exec.timer with
    | none => simp [handleEvent, htm, hph]
    | some k => cases k <;> simp [handleEvent, htm, hph]
  | notify id st =>
    by_cases h : notifyTriggers c.exec id st <;> simp [handleEvent, h, hph]

/-- Once a run has settled, any sequence of later events leaves the outcome
and the write log unchanged. -/
theorem done_absorbs_events (bus : Bus) (c : Cfg) (o : Outcome)
    (hph : c.phase = .done o) (evs : List Ev) :
    (runEventsFrom bus c evs).phase = .done o ∧
    (runEventsFrom bus c evs).writes = c.writes := by
  induction evs generalizing c with
  | nil => exact ⟨hph, rfl⟩
  | cons e evs ih =>
    have h1 := done_absorbs bus c o hph e
    have h2 := ih (handleEvent bus c e) h1.1
    simp only [runEventsFrom, List.foldl_cons] at h2 ⊢
    exact ⟨h2.1, h2.2.trans h1.2⟩

/-- C2: if `abort()` arrives while a wait of either kind is pending (the
run is suspended in a delay or state wait, with `_rejectCurrent` armed),
the run settles as `Aborted` — the phase becomes `done` with the
`Action chain aborted` error — with the write log unchanged, so no
subsequent step's write is performed; and every sequence of events
delivered afterwards, notifications included, leaves the settled outcome
and the write log unchanged (no late resolution, no second settlement). -/
theorem c2_abort_pending (bus : Bus) (c : Cfg) (cur : ChainStep)
    (rest : List ChainStep)
    (hrc : c.exec.hasRejectCurrent = true)
    (hph : c.phase = .waitingDelay cur rest ∨ c.phase = .waitingState cur rest)
    (evs : List Ev) :
    (handleEvent bus c .abortCall).phase = .done (.error abortMsg) ∧
    (handleEvent bus c .abortCall).writes = c.writes ∧
    (runEventsFrom bus (handleEvent bus c .abortCall) evs).phase =
      .done (.error abortMsg) ∧
    (runEventsFrom bus (handleEvent bus c .abortCall) evs).writes =
      c.writes := by
  have h1 : (handleEvent bus c .abortCall).phase = .done (.error abortMsg) ∧
      (handleEvent bus c .abortCall).writes = c.writes := by
    rcases hph with h | h <;> simp [handleEvent, hrc, h]
  have h2 := done_absorbs_events bus _ _ h1.1 evs
  exact ⟨h1.1, h1.2, h2.1, h2.2.trans h1.2⟩

/-- A run suspended in the delay wait of its first step. -/
def cfgDelayPending : Cfg :=
  execute busOK [⟨"a", .num 1, some (.delay (some 100))⟩, ⟨"b", .num 2, none⟩]
    initExec

/-- C2 witness: abort a concrete run pending in a delay wait, then deliver a
late notification and a late timer event. -/
theorem c2_witness :
    (handleEvent busOK cfgDelayPending .abortCall).phase =
      .done (.error abortMsg) ∧
    (handleEvent busOK cfgDelayPending .abortCall).writes =
      cfgDelayPending.writes ∧
    (runEventsFrom busOK (handleEvent busOK cfgDelayPending .abortCall)
        [.notify "s" (some (.bool true)), .timerFires]).phase =
      .done (.error abortMsg) ∧
    (runEventsFrom busOK (handleEvent busOK cfgDelayPending .abortCall)
        [.notify "s" (some (.bool true)), .timerFires]).writes =
      cfgDelayPending.writes :=
  c2_abort_pending busOK cfgDelayPending
    ⟨"a", .num 1, some (.delay (some 100))⟩ [⟨"b", .num 2, none⟩]
    (by decide) (Or.inl (by decide))
    [.notify "s" (some (.bool true)), .timerFires]

/-- A notification that does not trigger the registered match handler leaves
the configuration unchanged. -/
theorem notify_no_trigger (bus : Bus) (c : Cfg) (id : String)
    (st : Option JSVal) (h : notifyTriggers c.exec id st = false) :
    handleEvent bus c (.notify id st) = c := by
  simp [handleEvent, h]

/-- A sequence of non-triggering notifications leaves the configuration
unchanged. -/
theorem runEventsFrom_no_trigger (bus : Bus) (c : Cfg) (evs : List Ev)
    (h : ∀ e ∈ evs, ∃ id st, e = .notify id st ∧
      notifyTriggers c.exec id st = false) :
    runEventsFrom bus c evs = c := by
  induction evs with
  | nil => rfl
  | cons e evs ih =>
    obtain ⟨id, st, rfl, hnt⟩ := h e (by simp)
    simp only [runEventsFrom, List.foldl_cons] at ih ⊢
    rw [notify_no_trigger bus c id st hnt]
    exact ih (fun e he => h e (by simp [he]))

/-- C6 (amended): a state wait that receives no triggering notification
before its timer fires rejects with the timeout error — which names the
target and the expected value (the elapsed duration appears only in the
warning log, not in the error) — and the write log is unchanged, so no
further step of the chain executes. -/
theorem c6_state_timeout (bus : Bus) (c : Cfg) (cur : ChainStep)
    (rest : List ChainStep) (oid : String) (expd : JSVal) (d : Int)
    (hph : c.phase = .waitingState cur rest)
    (htm : c.exec.timer = some (.timeoutK oid expd d))
    (evs : List Ev)
    (hnm : ∀ e ∈ evs, ∃ id st, e = .notify id st ∧
      notifyTriggers c.exec id st = false) :
    (runEventsFrom bus c (evs ++ [.timerFires])).phase =
      .done (.error (timeoutMsg oid expd)) ∧
    (runEventsFrom bus c (evs ++ [.timerFires])).writes = c.writes := by
  have hsplit : runEventsFrom bus c (evs ++ [.timerFires]) =
      handleEvent bus (runEventsFrom bus c evs) .timerFires := by
    simp [runEventsFrom, List.foldl_append]
  rw [hsplit, runEventsFrom_no_trigger bus c evs hnm]
  simp [handleEvent, htm, hph]

/-- A bus on which every write succeeds and every read yields the value 0. -/
def busRead0 : Bus := ⟨fun _ _ => .ok (), fun _ => .ok (some (.num 0))⟩

/-- C6 counterexample: two state waits configured with different timeouts
(1000 ms and 5 ms) reject with the identical error message
`Timeout waiting for s to reach true` — so the rejection error cannot name
the elapsed duration, contrary to the claim (the duration is only logged). -/
theorem c6_counterexample :
    (runEvents busRead0
        [⟨"y", .num 1, some (.state "s" (.bool true) (some 1000))⟩]
        [.timerFires]).phase =
      .done (.error "Timeout waiting for s to reach true") ∧
    (runEvents busRead0
        [⟨"y", .num 1, some (.state "s" (.bool true) (some 5))⟩]
        [.timerFires]).phase =
      .done (.error "Timeout waiting for s to reach true") := by
  decide

/-- A run suspended in the state wait of its first step, watching `s` for
the value `true` with a 1000 ms timeout. -/
def cfgStatePending : Cfg :=
  execute busRead0 [⟨"y", .num 1, some (.state "s" (.bool true) (some 1000))⟩]
    initExec

/-- C6 witness: a concrete armed state wait receives two non-matching
notifications and then its timeout fires. -/
theorem c6_witness :
    (runEventsFrom busRead0 cfgStatePending
        [.notify "s" (some (.num 0)), .notify "other" (some (.bool true)),
          .timerFires]).phase =
      .done (.error (timeoutMsg "s" (.bool true))) ∧
    (runEventsFrom busRead0 cfgStatePending
        [.notify "s" (some (.num 0)), .notify "other" (some (.bool true)),
          .timerFires]).writes = cfgStatePending.writes :=
  c6_state_timeout busRead0 cfgStatePending
    ⟨"y", .num 1, some (.state "s" (.bool true) (some 1000))⟩ []
    "s" (.bool true) 1000 (by decide) (by decide)
    [.notify "s" (some (.num 0)), .notify "other" (some (.bool true))]
    (by
      intro e he
      simp only [List.mem_cons, List.not_mem_nil, or_false] at he
      rcases he with rfl | rfl
      · exact ⟨"s", some (.num 0), rfl, by decide⟩
      · exact ⟨"other", some (.bool true), rfl, by decide⟩)

/-- C10: arming a state wait whose configured `timeout` field is absent or 0
(the falsy values of the integer domain) arms the timeout timer with the
30000 ms default — and the wait is then pending, not immediately timed out —
while any non-zero configured value is used as given. -/
theorem c10_falsy_timeout_defaults (bus : Bus) (step : ChainStep)
    (rest : List ChainStep) (ex : Exec) (ws : List (String × JSVal))
    (oid : String) (expd : JSVal) (tmo : Option Int)
    (hw : step.waitBefore = some (.state oid expd tmo))
    (hab : ex.aborted = false)
    (st : Option JSVal) (hread : bus.read oid = .ok st)
    (hm : stateMatchesNow st expd = false) :
    ((tmo = none ∨ tmo = some 0) →
      (runSteps bus ex ws (step :: rest)).exec.timer =
        some (.timeoutK oid expd 30000) ∧
      (runSteps bus ex ws (step :: rest)).phase = .waitingState step rest) ∧
    (∀ t : Int, tmo = some t → t ≠ 0 →
      (runSteps bus ex ws (step :: rest)).exec.timer =
        some (.timeoutK oid expd t)) := by
  have hrun : runSteps bus ex ws (step :: rest) =
      ⟨armState { ex with hasRejectCurrent := true } oid expd tmo, ws,
        .waitingState step rest⟩ := by
    simp [runSteps, hab, hw, hread, hm]
  rw [hrun]
  refine ⟨?_, ?_⟩
  · rintro (rfl | rfl) <;> simp [armState, effTimeout]
  · rintro t rfl ht
    simp [armState, effTimeout, ht]

/-- C10 witness: a state wait configured with `timeout: 0` arms a 30000 ms
timer and stays pending. -/
theorem c10_witness :
    (runSteps busRead0 initExec []
        [⟨"y", .num 1, some (.state "s" (.bool true) (some 0))⟩]).exec.timer =
      some (.timeoutK "s" (.bool true) 30000) ∧
    (runSteps busRead0 initExec []
        [⟨"y", .num 1, some (.state "s" (.bool true) (some 0))⟩]).phase =
      .waitingState ⟨"y", .num 1, some (.state "s" (.bool true) (some 0))⟩ [] :=
  (c10_falsy_timeout_defaults busRead0
    ⟨"y", .num 1, some (.state "s" (.bool true) (some 0))⟩ [] initExec []
    "s" (.bool true) (some 0) rfl rfl (some (.num 0)) rfl (by decide)).1
    (Or.inr rfl)

/-- C1: the failing input for the handle-release invariant.  A one-step
chain whose state wait (watching `s` for `true`) arms its handler and timer
and then settles by timeout: after settlement the timer slot is released,
but the state handler and its object id are still registered —
`_waitForState`'s `cleanup` nulls `_unsubscribe` without invoking it, so
the normal-resolution, timeout and error exit paths never clear
`_stateHandler` (only `abort()` does). -/
theorem c1_handler_leak :
    (runEvents busRead0
        [⟨"y", .num 1, some (.state "s" (.bool true) (some 1000))⟩]
        [.timerFires]).phase =
      .done (.error (timeoutMsg "s" (.bool true))) ∧
    (runEvents busRead0
        [⟨"y", .num 1, some (.state "s" (.bool true) (some 1000))⟩]
        [.timerFires]).exec.timer = none ∧
    (runEvents busRead0
        [⟨"y", .num 1, some (.state "s" (.bool true) (some 1000))⟩]
        [.timerFires]).exec.stateHandler = some ("s", .bool true) ∧
    (runEvents busRead0
        [⟨"y", .num 1, some (.state "s" (.bool true) (some 1000))⟩]
        [.timerFires]).exec.stateHandlerObjectId = some "s" := by
  decide

end VirtualDevices
